import Mathlib

/-!
Verification of the selenium-cucumber.js browser-automation harness.

The embedding below models, directly from the JavaScript sources:
  * `src/utility/helpers.js` — the wait helpers (`waitUntilAttributeEquals`,
    `waitUntilAttributeExists`, `waitUntilAttributeDoesNotExists`,
    `waitForNewWindows`) as Wait Descriptors (effective timeout + failure
    message) plus the polling loop of `waitForNewWindows`;
  * the driver factories (chrome, firefox, phantomjs in
    `src/Drivers/phantomDriver.js` and `src/unnamed/part_000`, electron in
    `src/Drivers/electronDriver.js`) as the capability/configuration record
    each one builds;
  * the world/lifecycle module (second document of
    `src/Drivers/phantomDriver.js`): `getDriverInstance` dispatch,
    `createWorld`, and the cucumber hooks (`BeforeScenario`, `After`,
    `AfterFeatures`) as an event-trace state machine.

JavaScript numbers that reach the helpers are modelled as `Int` (`Option Int`
for an optional argument, `none` standing for `undefined`); JS truthiness of
a number is `v ≠ 0`, of `undefined`/`null` is false.
-/

namespace SeleniumCucumber

namespace Helpers

/-- JS `a || b` on an optional numeric argument: `undefined` and `0` are
falsy and fall through to the default.  This is the
`waitInMilliseconds || DEFAULT_TIMEOUT` pattern of `src/utility/helpers.js`. -/
def jsOr (waitInMilliseconds : Option Int) (defaultTimeout : Int) : Int :=
  match waitInMilliseconds with
  | none => defaultTimeout
  | some v => if v = 0 then defaultTimeout else v

/-- String interpolation of a JS number that may be `undefined`
(JS string concatenation prints `undefined` for a missing argument). -/
def jsNumToString : Option Int → String
  | none => "undefined"
  | some v => toString v

/-- A Wait Descriptor: the effective timeout and the failure message a wait
helper hands to `driver.wait`.  (The predicate itself is a live-session
callback and is abstracted away; only timeout and message are data.) -/
structure WaitDescriptor where
  timeout : Int
  message : String
deriving DecidableEq, Repr

/-- Descriptor built by `helpers.waitUntilAttributeEquals`
(`src/utility/helpers.js` lines 100-105):
`timeout = waitInMilliseconds || DEFAULT_TIMEOUT`,
`timeoutMessage = attributeName + ' does not equal ' + attributeValue +
' after ' + waitInMilliseconds + ' milliseconds'`. -/
def waitUntilAttributeEquals (elementSelector attributeName attributeValue : String)
    (waitInMilliseconds : Option Int) (defaultTimeout : Int) : WaitDescriptor :=
  let _ := elementSelector
  { timeout := jsOr waitInMilliseconds defaultTimeout,
    message := attributeName ++ " does not equal " ++ attributeValue ++ " after "
      ++ jsNumToString waitInMilliseconds ++ " milliseconds" }

/-- Descriptor built by `helpers.waitUntilAttributeExists`
(`src/utility/helpers.js` lines 116-121). -/
def waitUntilAttributeExists (elementSelector attributeName : String)
    (waitInMilliseconds : Option Int) (defaultTimeout : Int) : WaitDescriptor :=
  let _ := elementSelector
  { timeout := jsOr waitInMilliseconds defaultTimeout,
    message := attributeName ++ " does not exists after "
      ++ jsNumToString waitInMilliseconds ++ " milliseconds" }

/-- Descriptor built by `helpers.waitUntilAttributeDoesNotExists`
(`src/utility/helpers.js` lines 132-138). -/
def waitUntilAttributeDoesNotExists (elementSelector attributeName : String)
    (waitInMilliseconds : Option Int) (defaultTimeout : Int) : WaitDescriptor :=
  let _ := elementSelector
  { timeout := jsOr waitInMilliseconds defaultTimeout,
    message := attributeName ++ " still exists after "
      ++ jsNumToString waitInMilliseconds ++ " milliseconds" }

/-- Effective timeout of `helpers.waitForNewWindows`
(`src/utility/helpers.js` line 184): same `||` fallback as the attribute
waits; this helper carries no failure message. -/
def waitForNewWindowsTimeout (waitInMilliseconds : Option Int)
    (defaultTimeout : Int) : Int :=
  jsOr waitInMilliseconds defaultTimeout

/-- The loop body of `waitForNewWindows`
(`for (let i = 0; i < timeout; i += 1000) ... `): `windowsAt k` is the list
of window handles returned by the k-th `driver.getAllWindowHandles()` call;
`fuel` counts the iterations left (the JS loop runs once for each
`i ∈ \x7b0, 1000, 2000, ...\x7d` with `i < timeout`, i.e. `⌈timeout/1000⌉`
times).  Returns `some windows` as soon as `windows.length > 1`, and `none`
(the implicit `undefined` of falling off the loop) otherwise. -/
def waitForNewWindowsLoop (windowsAt : Nat → List String) :
    Nat → Nat → Option (List String)
  | _, 0 => none
  | k, fuel + 1 =>
    let windows := windowsAt k
    if windows.length > 1 then some windows
    else waitForNewWindowsLoop windowsAt (k + 1) fuel

/-- Number of iterations of `for (let i = 0; i < timeout; i += 1000)`:
`⌈timeout/1000⌉`. -/
def numPolls (timeout : Nat) : Nat := (timeout + 999) / 1000

/-- `helpers.waitForNewWindows` (`src/utility/helpers.js` lines 183-191),
with the effective timeout already computed (a JS non-positive timeout runs
zero iterations, matching `Int.toNat`). -/
def waitForNewWindows (windowsAt : Nat → List String) (timeout : Int) :
    Option (List String) :=
  waitForNewWindowsLoop windowsAt 0 (numPolls timeout.toNat)

/-- The effective timeouts of all four wait helpers at the same arguments:
`waitUntilAttributeEquals`, `waitUntilAttributeExists`,
`waitUntilAttributeDoesNotExists`, `waitForNewWindows`. -/
def allWaitTimeouts (elementSelector attributeName attributeValue : String)
    (waitInMilliseconds : Option Int) (defaultTimeout : Int) : List Int :=
  [(waitUntilAttributeEquals elementSelector attributeName attributeValue
      waitInMilliseconds defaultTimeout).timeout,
   (waitUntilAttributeExists elementSelector attributeName
      waitInMilliseconds defaultTimeout).timeout,
   (waitUntilAttributeDoesNotExists elementSelector attributeName
      waitInMilliseconds defaultTimeout).timeout,
   waitForNewWindowsTimeout waitInMilliseconds defaultTimeout]

end Helpers

namespace Drivers

/-- The configuration a driver factory builds before calling
`.build()`: which browser it asks for, the `javascriptEnabled` and
`acceptSslCerts` capability flags (absent = false), and whether the factory
invokes `driver.manage().window().maximize()` on the created driver. -/
structure DriverFactoryConfig where
  forBrowser : Option String
  javascriptEnabled : Bool
  acceptSslCerts : Bool
  windowMaximized : Bool
deriving DecidableEq, Repr

/-- Chrome factory (`src/unnamed/part_000`, first document): capabilities
`browserName: 'chrome'`, `javascriptEnabled: true`, `acceptSslCerts: true`,
then `driver.manage().window().maximize()`. -/
def chromeDriverFactory : DriverFactoryConfig :=
  { forBrowser := some "chrome", javascriptEnabled := true,
    acceptSslCerts := true, windowMaximized := true }

/-- Firefox factory (`src/unnamed/part_000`, second document): capabilities
`browserName: 'firefox'`, `javascriptEnabled: true`, `acceptSslCerts: true`,
then maximize. -/
def firefoxDriverFactory : DriverFactoryConfig :=
  { forBrowser := some "firefox", javascriptEnabled := true,
    acceptSslCerts := true, windowMaximized := true }

/-- PhantomJS factory (`src/Drivers/phantomDriver.js`, first document):
capabilities `browserName: 'phantomjs'`, `javascriptEnabled: true`,
`acceptSslCerts: true`, then maximize. -/
def phantomjsDriverFactory : DriverFactoryConfig :=
  { forBrowser := some "phantomjs", javascriptEnabled := true,
    acceptSslCerts := true, windowMaximized := true }

/-- Electron factory (`src/Drivers/electronDriver.js`): capabilities contain
only `chromeOptions.binary`; no `javascriptEnabled`, no `acceptSslCerts`,
browser selected via `.forBrowser('electron')`, and no maximize call. -/
def electronDriverFactory : DriverFactoryConfig :=
  { forBrowser := some "electron", javascriptEnabled := false,
    acceptSslCerts := false, windowMaximized := false }

end Drivers

namespace World

/-- What `getDriverInstance` resolved the browser identifier to: one of the
four named providers, or a custom driver module file (which is then loaded
with `require` and invoked as a zero-argument factory). -/
inductive DriverKind where
  | firefox
  | phantomjs
  | electron
  | chrome
  | custom (file : String)
deriving DecidableEq, Repr

/-- The dispatch of `getDriverInstance` (world module, lines 49-81 of the
combined `src/Drivers/phantomDriver.js`): `switch (browserName || '')` over
the four named providers; in the default branch
`driverFileName = path.resolve(process.cwd(), browserName)` (abstracted as
`resolvePath`), throwing `'Could not find driver file: ' + driverFileName`
when `fs.isFileSync` fails, else `require(driverFileName)()`.
`Except.error` carries the thrown message. -/
def getDriverInstance (browserName : String) (resolvePath : String → String)
    (isFileSync : String → Bool) : Except String DriverKind :=
  match browserName with
  | "firefox" => Except.ok DriverKind.firefox
  | "phantomjs" => Except.ok DriverKind.phantomjs
  | "electron" => Except.ok DriverKind.electron
  | "chrome" => Except.ok DriverKind.chrome
  | _ =>
    let driverFileName := resolvePath browserName
    if isFileSync driverFileName then Except.ok (DriverKind.custom driverFileName)
    else Except.error ("Could not find driver file: " ++ driverFileName)

/-- The fixed named set of the dispatch. -/
def namedBrowsers : List String := ["firefox", "phantomjs", "electron", "chrome"]

/-- A JavaScript value as far as `createWorld` is concerned: `undefined`,
`null`, or some defined object/function, tagged by where it came from. -/
inductive JSVal where
  | undef
  | null
  | obj (tag : String)
  | driverVal (id : Nat)
deriving DecidableEq, Repr

/-- JS truthiness on `JSVal`: `undefined` and `null` are falsy, objects are
truthy. -/
def truthy : JSVal → Bool
  | JSVal.undef => false
  | JSVal.null => false
  | JSVal.obj _ => true
  | JSVal.driverVal _ => true

/-- The `runtime` object literal of `createWorld` (world module lines
106-118), in declaration order, given the current globals `g` (for
`global.page || \x7b\x7d` and `global.shared || \x7b\x7d`). -/
def runtimeEntries (g : String → JSVal) : List (String × JSVal) :=
  [("driver", JSVal.null),
   ("eyes", JSVal.null),
   ("selenium", JSVal.obj "selenium"),
   ("By", JSVal.obj "selenium.By"),
   ("by", JSVal.obj "selenium.By"),
   ("until", JSVal.obj "selenium.until"),
   ("expect", JSVal.obj "chai.expect"),
   ("assert", JSVal.obj "chai.assert"),
   ("trace", JSVal.obj "consoleInfo"),
   ("page", if truthy (g "page") then g "page" else JSVal.obj "emptyObject"),
   ("shared", if truthy (g "shared") then g "shared" else JSVal.obj "emptyObject")]

/-- `createWorld` (world module lines 105-128): iterate over
`Object.keys(runtime)`, skipping the assignment exactly when the key is
`'driver'` and `browserTeardownStrategy !== 'always'`, otherwise setting
`global[key] = runtime[key]`.  Globals are a total map from name to `JSVal`
(`undef` = never set). -/
def createWorld (browserTeardownStrategy : String) (g : String → JSVal) :
    String → JSVal :=
  (runtimeEntries g).foldl
    (fun acc kv =>
      if kv.1 = "driver" ∧ browserTeardownStrategy ≠ "always" then acc
      else fun k => if k = kv.1 then kv.2 else acc k)
    g

end World

namespace Lifecycle

/-- Run-wide configuration globals read by the hooks: `browserName`,
`browserTeardownStrategy`, and the `global.noScreenshot` toggle. -/
structure Config where
  browserName : String
  browserTeardownStrategy : String
  noScreenshot : Bool
deriving DecidableEq, Repr

/-- Mutable state of the world module: the module-level `let driver`
variable, the published `global.driver`, and a counter giving each driver
object created by `getDriverInstance` a distinct identity. -/
structure State where
  driver : Option Nat
  globalDriver : Option Nat
  nextId : Nat
deriving DecidableEq, Repr

/-- State before any hook has run (`let driver` is undefined,
`global.driver` unset). -/
def initState : State := { driver := none, globalDriver := none, nextId := 0 }

/-- Observable actions the hooks perform on the session, in call order. -/
inductive Ev where
  | createDriver (id : Nat)
  | publishDriver (id : Nat)
  | takeScreenshot (id : Nat)
  | attachScreenshot
  | clearCookies
  | clearStorages
  | closeDriver (id : Nat)
  | quitDriver (id : Nat)
deriving DecidableEq, Repr

/-- `getDriverInstance` as a state action (for a named browser identifier,
where dispatch cannot throw): build a fresh driver, store it in the
module-level `driver`, publish it as `global.driver` (line 79), and return
it. -/
def getDriverInstance (s : State) : State × List Ev :=
  ({ driver := some s.nextId, globalDriver := some s.nextId,
     nextId := s.nextId + 1 },
   [Ev.createDriver s.nextId, Ev.publishDriver s.nextId])

/-- The `BeforeScenario` handler (world module lines 179-187):
`global.driver = !driver ? getDriverInstance() : driver;` — create only when
the module-level `driver` is still undefined, otherwise republish the
existing one.  The outer assignment writes `global.driver` in both
branches. -/
def beforeScenario (s : State) : State × List Ev :=
  match s.driver with
  | none =>
    let r := getDriverInstance s
    ({ r.1 with globalDriver := r.1.driver },
     r.2 ++ [Ev.publishDriver s.nextId])
  | some id => ({ s with globalDriver := some id }, [Ev.publishDriver id])

/-- `closeBrowser` (world module lines 153-160): `driver.close()`, then
`driver.quit()` unless `browserName === 'firefox'`.  `none` models the
TypeError of calling `.close()` on an undefined `driver`. -/
def closeBrowser (cfg : Config) (s : State) : Option (State × List Ev) :=
  match s.driver with
  | none => none
  | some id =>
    some (s, Ev.closeDriver id ::
      (if cfg.browserName = "firefox" then [] else [Ev.quitDriver id]))

/-- `teardownBrowser` (world module lines 162-166): awaits a resolved
promise, then `helpers.clearCookiesAndStorages()`; the `closeBrowser()` call
is commented out in the source, so no close or quit happens here and the
driver state is untouched. -/
def teardownBrowser (s : State) : State × List Ev :=
  (s, [Ev.clearCookies, Ev.clearStorages])

/-- The `After` hook (world module lines 217-230).  On a failed scenario
with screenshots enabled: `global.driver.takeScreenshot()` (TypeError, i.e.
`none`, if `global.driver` is unset), attach the image, then
`helpers.clearCookiesAndStorages()`, then `teardownBrowser()`.  The
module-level `eyes` is never assigned (the `BeforeScenario` assignment is
commented out), so the `eyes.abortIfNotClosed()` branch never runs.
Otherwise just `teardownBrowser()`. -/
def afterScenario (cfg : Config) (failed : Bool) (s : State) :
    Option (State × List Ev) :=
  if failed ∧ ¬cfg.noScreenshot then
    match s.globalDriver with
    | none => none
    | some id =>
      let t := teardownBrowser s
      some (t.1, [Ev.takeScreenshot id, Ev.attachScreenshot,
                  Ev.clearCookies, Ev.clearStorages] ++ t.2)
  else
    some (teardownBrowser s)

/-- The teardown part of the `AfterFeatures` handler (world module lines
209-213): `closeBrowser()` when `browserTeardownStrategy !== 'always'`,
otherwise nothing (report generation touches no session state and is
omitted). -/
def afterFeatures (cfg : Config) (s : State) : Option (State × List Ev) :=
  if cfg.browserTeardownStrategy = "always" then some (s, [])
  else closeBrowser cfg s

/-- One scenario as the hooks see it: `BeforeScenario`, the steps (which do
not create or destroy the session), then `After`. -/
def runScenario (cfg : Config) (failed : Bool) (s : State) :
    Option (State × List Ev) :=
  let b := beforeScenario s
  match afterScenario cfg failed b.1 with
  | none => none
  | some a => some (a.1, b.2 ++ a.2)

/-- A whole run of scenarios with the given failure outcomes. -/
def runScenarios (cfg : Config) : List Bool → State → Option (State × List Ev)
  | [], s => some (s, [])
  | f :: rest, s =>
    match runScenario cfg f s with
    | none => none
    | some r =>
      match runScenarios cfg rest r.1 with
      | none => none
      | some r2 => some (r2.1, r.2 ++ r2.2)

/-- Is this event a destruction step (`close` or `quit`) of the session? -/
def isDestroy : Ev → Bool
  | Ev.closeDriver _ => true
  | Ev.quitDriver _ => true
  | _ => false

/-- Is this event the `driver.close()` destruction step? -/
def isClose : Ev → Bool
  | Ev.closeDriver _ => true
  | _ => false

/-- The handle identities published to `global.driver` along a trace. -/
def publishedIds (evs : List Ev) : List Nat :=
  evs.filterMap fun e =>
    match e with
    | Ev.publishDriver id => some id
    | _ => none

/-- The handle identities created along a trace. -/
def createdIds (evs : List Ev) : List Nat :=
  evs.filterMap fun e =>
    match e with
    | Ev.createDriver id => some id
    | _ => none

/-- Is this event a diagnostics-capture step (screenshot or attach)? -/
def isCapture : Ev → Bool
  | Ev.takeScreenshot _ => true
  | Ev.attachScreenshot => true
  | _ => false

/-- Is this event the cookie/storage-clearing hygiene? -/
def isHygiene : Ev → Bool
  | Ev.clearCookies => true
  | Ev.clearStorages => true
  | _ => false

/-- Events a scenario phase may emit once the session with identity `id`
exists: republishing or photographing that same handle, or hygiene — in
particular no creation and no destruction. -/
def scenarioSafe (id : Nat) : Ev → Bool
  | Ev.publishDriver i => i = id
  | Ev.takeScreenshot i => i = id
  | Ev.attachScreenshot => true
  | Ev.clearCookies => true
  | Ev.clearStorages => true
  | _ => false

end Lifecycle

namespace Fixtures

/-- A concrete window-handle history: one window for the first two polls,
two windows from the third poll on. -/
def windowsLater : Nat → List String :=
  fun k => if 2 ≤ k then ["w0", "w1"] else ["w0"]

/-- A concrete window-handle history: a single window forever. -/
def windowsNever : Nat → List String :=
  fun _ => ["w0"]

end Fixtures

/-- `sub` occurs as a contiguous substring of `s`. -/
def containsStr (s sub : String) : Prop :=
  ∃ pre post, s = pre ++ sub ++ post

/-- Claim C8: when `waitUntilAttributeEquals(selector, attributeName,
attributeValue, waitInMilliseconds)` times out, the failure message it
carries contains the attribute name, the expected attribute value, and the
numeric timeout argument. -/
theorem c8_timeout_message_contents (elementSelector attributeName attributeValue : String)
    (t : Int) (defaultTimeout : Int) :
    containsStr (Helpers.waitUntilAttributeEquals elementSelector attributeName
        attributeValue (some t) defaultTimeout).message attributeName ∧
    containsStr (Helpers.waitUntilAttributeEquals elementSelector attributeName
        attributeValue (some t) defaultTimeout).message attributeValue ∧
    containsStr (Helpers.waitUntilAttributeEquals elementSelector attributeName
        attributeValue (some t) defaultTimeout).message (toString t) := by
  refine ⟨⟨"", " does not equal " ++ attributeValue ++ " after " ++ toString t
      ++ " milliseconds", ?_⟩,
    ⟨attributeName ++ " does not equal ", " after " ++ toString t
      ++ " milliseconds", ?_⟩,
    ⟨attributeName ++ " does not equal " ++ attributeValue ++ " after ",
      " milliseconds", ?_⟩⟩ <;>
  simp [Helpers.waitUntilAttributeEquals, Helpers.jsNumToString, String.append_assoc]

/-- Claim C9 counterexample: the electron driver factory
(`src/Drivers/electronDriver.js`) configures neither SSL-trust nor window
maximization, so the claim fails at the named identifier `electron`. -/
theorem c9_counterexample :
    ¬(Drivers.electronDriverFactory.acceptSslCerts = true ∧
      Drivers.electronDriverFactory.windowMaximized = true) := by
  decide

/-- Claim C9 (amended): the chrome, firefox and phantomjs driver factories
each produce a session configured with SSL-trust enabled and the window
maximized; the electron factory configures neither (it only sets the binary
path and asks for the electron browser). -/
theorem c9_ssl_trust_and_maximize :
    (Drivers.chromeDriverFactory.acceptSslCerts = true ∧
      Drivers.chromeDriverFactory.windowMaximized = true) ∧
    (Drivers.firefoxDriverFactory.acceptSslCerts = true ∧
      Drivers.firefoxDriverFactory.windowMaximized = true) ∧
    (Drivers.phantomjsDriverFactory.acceptSslCerts = true ∧
      Drivers.phantomjsDriverFactory.windowMaximized = true) ∧
    Drivers.electronDriverFactory.acceptSslCerts = false ∧
    Drivers.electronDriverFactory.windowMaximized = false := by
  decide

/-- Every wait helper computes its effective timeout as
`waitInMilliseconds || DEFAULT_TIMEOUT`. -/
theorem allWaitTimeouts_eq_jsOr (elementSelector attributeName attributeValue : String)
    (w : Option Int) (d : Int) :
    ∀ t ∈ Helpers.allWaitTimeouts elementSelector attributeName attributeValue w d,
      t = Helpers.jsOr w d := by
  intro t ht
  fin_cases ht <;> rfl

/-- Claim C7 counterexample: a caller-supplied negative timeout passes
straight through the `||` fallback, so the built Wait Descriptor carries a
non-positive timeout. -/
theorem c7_counterexample :
    (Helpers.waitUntilAttributeEquals "html" "data-busy" "false"
        (some (-1)) 10000).timeout = -1 ∧
    ¬(0 < (Helpers.waitUntilAttributeEquals "html" "data-busy" "false"
        (some (-1)) 10000).timeout) := by
  exact ⟨rfl, by decide⟩

/-- Claim C7 (amended): for every Wait Descriptor built by the four wait
helpers, whenever the caller leaves the timeout argument unspecified the
process-wide default `DEFAULT_TIMEOUT` is used instead, and the effective
timeout is positive provided `DEFAULT_TIMEOUT` is positive and any
explicitly supplied timeout is nonnegative (a zero argument also falls back
to the default; a negative argument is passed through unchanged). -/
theorem c7_effective_timeout (elementSelector attributeName attributeValue : String)
    (w : Option Int) (d : Int) (hd : 0 < d) (hw : ∀ v, w = some v → 0 ≤ v) :
    (∀ t ∈ Helpers.allWaitTimeouts elementSelector attributeName attributeValue w d,
       0 < t) ∧
    (w = none →
      ∀ t ∈ Helpers.allWaitTimeouts elementSelector attributeName attributeValue w d,
        t = d) := by
  have hpos : 0 < Helpers.jsOr w d := by
    cases w with
    | none => simpa [Helpers.jsOr] using hd
    | some v =>
      have hv : 0 ≤ v := hw v rfl
      simp only [Helpers.jsOr]
      by_cases h0 : v = 0
      · simpa [h0] using hd
      · simpa [h0] using lt_of_le_of_ne hv (Ne.symm h0)
  refine ⟨fun t ht => ?_, fun hnone t ht => ?_⟩
  · rw [allWaitTimeouts_eq_jsOr elementSelector attributeName attributeValue w d t ht]
    exact hpos
  · rw [allWaitTimeouts_eq_jsOr elementSelector attributeName attributeValue w d t ht,
      hnone]
    rfl

/-- Claim C7 witness: at an unspecified timeout argument and default 10000,
every helper's effective timeout is positive and equals the default. -/
theorem c7_witness :
    (∀ t ∈ Helpers.allWaitTimeouts "html" "data-busy" "false" none 10000, 0 < t) ∧
    (∀ t ∈ Helpers.allWaitTimeouts "html" "data-busy" "false" none 10000,
      t = 10000) := by
  have h := c7_effective_timeout "html" "data-busy" "false" none 10000
    (by decide) (fun v hv => by cases hv)
  exact ⟨h.1, h.2 rfl⟩

/-- Claim C5: a browser identifier outside the fixed named set that does not
resolve to an existing file makes `getDriverInstance` throw an error naming
the unresolvable driver file; an identifier that does resolve to a file
loads the module at that path as a zero-argument factory. -/
theorem c5_unknown_driver_dispatch (browserName : String)
    (resolvePath : String → String) (isFileSync : String → Bool)
    (hname : browserName ∉ World.namedBrowsers) :
    (isFileSync (resolvePath browserName) = false →
      World.getDriverInstance browserName resolvePath isFileSync =
        Except.error ("Could not find driver file: " ++ resolvePath browserName)) ∧
    (isFileSync (resolvePath browserName) = true →
      World.getDriverInstance browserName resolvePath isFileSync =
        Except.ok (World.DriverKind.custom (resolvePath browserName))) := by
  simp only [World.namedBrowsers, List.mem_cons, List.mem_singleton, not_or] at hname
  obtain ⟨h1, h2, h3, h4, -⟩ := hname
  constructor <;> intro hfile <;>
    · unfold World.getDriverInstance
      split
      · exact absurd rfl h1
      · exact absurd rfl h2
      · exact absurd rfl h3
      · exact absurd rfl h4
      · simp [hfile]

/-- Claim C5 witness: the identifier `opera` with a resolver mapping it to
`/cwd/opera` and a filesystem on which nothing is a file yields the
unknown-driver error naming that file. -/
theorem c5_witness :
    World.getDriverInstance "opera" (fun s => "/cwd/" ++ s) (fun _ => false) =
      Except.error ("Could not find driver file: " ++ "/cwd/" ++ "opera") :=
  (c5_unknown_driver_dispatch "opera" (fun s => "/cwd/" ++ s) (fun _ => false)
    (by decide)).1 rfl

/-- The polling loop falls off the end (JS `undefined`) exactly when every
remaining poll sees at most one window. -/
theorem waitForNewWindowsLoop_eq_none_iff (windowsAt : Nat → List String)
    (fuel k : Nat) :
    Helpers.waitForNewWindowsLoop windowsAt k fuel = none ↔
      ∀ j, j < fuel → (windowsAt (k + j)).length ≤ 1 := by
  induction fuel generalizing k with
  | zero => simp [Helpers.waitForNewWindowsLoop]
  | succ n ih =>
    simp only [Helpers.waitForNewWindowsLoop]
    by_cases h : (windowsAt k).length > 1
    · simp only [h, if_pos]
      constructor
      · intro hcontr; cases hcontr
      · intro hall
        have h0 := hall 0 (Nat.succ_pos n)
        simp only [Nat.add_zero] at h0
        omega
    · simp only [h, if_neg, if_false]
      rw [ih (k + 1)]
      constructor
      · intro hall j hj
        match j with
        | 0 => simpa using Nat.le_of_not_lt h
        | j' + 1 =>
          have := hall j' (by omega)
          simpa [Nat.add_assoc, Nat.add_comm 1 j'] using this
      · intro hall j hj
        have := hall (j + 1) (by omega)
        simpa [Nat.add_assoc, Nat.add_comm 1 j] using this

/-- When the polling loop resolves with a list, that list is the full window
list of the first poll that saw more than one window (all earlier polls saw
at most one). -/
theorem waitForNewWindowsLoop_eq_some (windowsAt : Nat → List String)
    (fuel k : Nat) (ws : List String)
    (h : Helpers.waitForNewWindowsLoop windowsAt k fuel = some ws) :
    ∃ j, j < fuel ∧ ws = windowsAt (k + j) ∧ ws.length > 1 ∧
      ∀ i, i < j → (windowsAt (k + i)).length ≤ 1 := by
  induction fuel generalizing k with
  | zero => cases h
  | succ n ih =>
    simp only [Helpers.waitForNewWindowsLoop] at h
    by_cases hlen : (windowsAt k).length > 1
    · rw [if_pos hlen] at h
      cases h
      exact ⟨0, Nat.succ_pos n, by simp, hlen, fun i hi => by cases hi⟩
    · rw [if_neg hlen] at h
      obtain ⟨j, hj, hws, hgt, hprev⟩ := ih (k + 1) h
      refine ⟨j + 1, by omega, by simpa [Nat.add_assoc, Nat.add_comm 1 j] using hws,
        hgt, ?_⟩
      intro i hi
      match i with
      | 0 => simpa using Nat.le_of_not_lt hlen
      | i' + 1 =>
        have := hprev i' (by omega)
        simpa [Nat.add_assoc, Nat.add_comm 1 i'] using this

/-- Claim C6: `waitForNewWindows` polls the open window handles once per
fixed 1-second interval; it resolves with the full handle list as soon as a
poll sees more than one window, and resolves with `undefined` (never
rejects) when every poll inside the timeout sees at most one. -/
theorem c6_waitForNewWindows (windowsAt : Nat → List String) (timeout : Int) :
    (Helpers.waitForNewWindows windowsAt timeout = none ↔
      ∀ k : Nat, 1000 * (k : Int) < timeout → (windowsAt k).length ≤ 1) ∧
    (∀ ws, Helpers.waitForNewWindows windowsAt timeout = some ws →
      ws.length > 1 ∧ ∃ k : Nat, 1000 * (k : Int) < timeout ∧ ws = windowsAt k ∧
        ∀ j, j < k → (windowsAt j).length ≤ 1) := by
  have hp : ∀ k : Nat, k < Helpers.numPolls timeout.toNat ↔ 1000 * (k : Int) < timeout := by
    intro k
    simp only [Helpers.numPolls]
    omega
  constructor
  · rw [Helpers.waitForNewWindows, waitForNewWindowsLoop_eq_none_iff]
    constructor
    · intro hall k hk
      simpa using hall k ((hp k).2 hk)
    · intro hall j hj
      simpa using hall j ((hp j).1 hj)
  · intro ws hws
    obtain ⟨j, hj, hwseq, hgt, hprev⟩ :=
      waitForNewWindowsLoop_eq_some windowsAt (Helpers.numPolls timeout.toNat) 0 ws hws
    exact ⟨hgt, j, (hp j).1 hj, by simpa using hwseq,
      fun i hi => by simpa using hprev i hi⟩

/-- Claim C6 witness: with a second window appearing at the third poll and a
5000ms timeout, `waitForNewWindows` resolves with both handles at poll 2,
the earlier polls having seen a single window. -/
theorem c6_witness :
    (["w0", "w1"] : List String).length > 1 ∧
    ∃ k : Nat, 1000 * (k : Int) < 5000 ∧
      (["w0", "w1"] : List String) = Fixtures.windowsLater k ∧
      ∀ j, j < k → (Fixtures.windowsLater j).length ≤ 1 :=
  (c6_waitForNewWindows Fixtures.windowsLater 5000).2 ["w0", "w1"] (by decide)

/-- Claim C10: `createWorld` overwrites every runtime key (selenium, By, by,
until, expect, assert, trace, page, shared) as a global on each invocation;
the single exception is `driver`, which is skipped entirely when the
teardown strategy is not `always` (leaving any live `global.driver`
untouched) and reset to `null` exactly when the strategy is `always`. -/
theorem c10_createWorld_globals (strategy : String) (g : String → World.JSVal) :
    World.createWorld strategy g "selenium" = World.JSVal.obj "selenium" ∧
    World.createWorld strategy g "By" = World.JSVal.obj "selenium.By" ∧
    World.createWorld strategy g "by" = World.JSVal.obj "selenium.By" ∧
    World.createWorld strategy g "until" = World.JSVal.obj "selenium.until" ∧
    World.createWorld strategy g "expect" = World.JSVal.obj "chai.expect" ∧
    World.createWorld strategy g "assert" = World.JSVal.obj "chai.assert" ∧
    World.createWorld strategy g "trace" = World.JSVal.obj "consoleInfo" ∧
    World.createWorld strategy g "page" =
      (if World.truthy (g "page") then g "page" else World.JSVal.obj "emptyObject") ∧
    World.createWorld strategy g "shared" =
      (if World.truthy (g "shared") then g "shared" else World.JSVal.obj "emptyObject") ∧
    (strategy ≠ "always" → World.createWorld strategy g "driver" = g "driver") ∧
    (strategy = "always" → World.createWorld strategy g "driver" = World.JSVal.null) := by
  by_cases hs : strategy = "always" <;>
    simp [World.createWorld, World.runtimeEntries, hs]

/-- Claim C10 witness: with a live driver published and strategy `default`,
re-creating the World leaves `global.driver` unchanged while overwriting the
other runtime keys. -/
theorem c10_witness :
    World.createWorld "default" (fun _ => World.JSVal.driverVal 7) "driver" =
      World.JSVal.driverVal 7 ∧
    World.createWorld "default" (fun _ => World.JSVal.driverVal 7) "selenium" =
      World.JSVal.obj "selenium" := by
  have h := c10_createWorld_globals "default" (fun _ => World.JSVal.driverVal 7)
  exact ⟨h.2.2.2.2.2.2.2.2.2.1 (by decide), h.1⟩

namespace Lifecycle

/-- With no driver yet, `BeforeScenario` creates one and publishes it. -/
theorem beforeScenario_of_none (s : State) (h : s.driver = none) :
    beforeScenario s =
      ({ driver := some s.nextId, globalDriver := some s.nextId,
         nextId := s.nextId + 1 },
       [Ev.createDriver s.nextId, Ev.publishDriver s.nextId,
        Ev.publishDriver s.nextId]) := by
  simp [beforeScenario, h, getDriverInstance]

/-- With a live driver, `BeforeScenario` only republishes it; if
`global.driver` already held it, the state is unchanged. -/
theorem beforeScenario_of_some (s : State) (id : Nat) (h : s.driver = some id) :
    beforeScenario s = ({ s with globalDriver := some id }, [Ev.publishDriver id]) := by
  simp [beforeScenario, h]

/-- `After` on a failed scenario with screenshots enabled: screenshot,
attach, then cookie/storage hygiene twice; state untouched. -/
theorem afterScenario_failed (cfg : Config) (s : State) (id : Nat)
    (hshot : cfg.noScreenshot = false) (hg : s.globalDriver = some id) :
    afterScenario cfg true s =
      some (s, [Ev.takeScreenshot id, Ev.attachScreenshot, Ev.clearCookies,
                Ev.clearStorages, Ev.clearCookies, Ev.clearStorages]) := by
  simp [afterScenario, hshot, hg, teardownBrowser]

/-- `After` on a passed scenario: only the cookie/storage hygiene of
`teardownBrowser`; state untouched. -/
theorem afterScenario_passed (cfg : Config) (s : State) :
    afterScenario cfg false s = some (s, [Ev.clearCookies, Ev.clearStorages]) := by
  simp [afterScenario, teardownBrowser]

/-- `After` with screenshots disabled: only the hygiene, for any outcome. -/
theorem afterScenario_noScreenshot (cfg : Config) (failed : Bool) (s : State)
    (hshot : cfg.noScreenshot = true) :
    afterScenario cfg failed s = some (s, [Ev.clearCookies, Ev.clearStorages]) := by
  simp [afterScenario, hshot, teardownBrowser]

/-- `closeBrowser` on a live driver: close it, then quit it unless the
browser is firefox. -/
theorem closeBrowser_of_some (cfg : Config) (s : State) (id : Nat)
    (h : s.driver = some id) :
    closeBrowser cfg s =
      some (s, Ev.closeDriver id ::
        (if cfg.browserName = "firefox" then [] else [Ev.quitDriver id])) := by
  simp [closeBrowser, h]

/-- `AfterFeatures` under policy `always` performs no teardown. -/
theorem afterFeatures_always (cfg : Config) (s : State)
    (h : cfg.browserTeardownStrategy = "always") :
    afterFeatures cfg s = some (s, []) := by
  simp [afterFeatures, h]

/-- `AfterFeatures` under any other policy runs `closeBrowser`. -/
theorem afterFeatures_not_always (cfg : Config) (s : State) (id : Nat)
    (h : cfg.browserTeardownStrategy ≠ "always") (hd : s.driver = some id) :
    afterFeatures cfg s =
      some (s, Ev.closeDriver id ::
        (if cfg.browserName = "firefox" then [] else [Ev.quitDriver id])) := by
  rw [afterFeatures, if_neg h]
  exact closeBrowser_of_some cfg s id hd

/-- A scenario run against an already-live, already-published session leaves
the state unchanged and emits only `scenarioSafe` events. -/
theorem runScenario_active (cfg : Config) (f : Bool) (s : State) (id : Nat)
    (h1 : s.driver = some id) (h2 : s.globalDriver = some id) :
    ∃ evs, runScenario cfg f s = some (s, evs) ∧
      ∀ e ∈ evs, scenarioSafe id e = true := by
  have hstate : { s with globalDriver := some id } = s := by
    cases s
    simp_all
  rw [runScenario, beforeScenario_of_some s id h1, hstate]
  by_cases hshot : cfg.noScreenshot = true
  · rw [afterScenario_noScreenshot cfg f s hshot]
    exact ⟨_, rfl, by simp [scenarioSafe]⟩
  · rw [Bool.not_eq_true] at hshot
    cases f with
    | false =>
      rw [afterScenario_passed cfg s]
      exact ⟨_, rfl, by simp [scenarioSafe]⟩
    | true =>
      rw [afterScenario_failed cfg s id hshot h2]
      exact ⟨_, rfl, by simp [scenarioSafe]⟩

/-- A whole run of scenarios against an already-live, already-published
session leaves the state unchanged and emits only `scenarioSafe` events. -/
theorem runScenarios_active (cfg : Config) (outcomes : List Bool) (s : State)
    (id : Nat) (h1 : s.driver = some id) (h2 : s.globalDriver = some id) :
    ∃ evs, runScenarios cfg outcomes s = some (s, evs) ∧
      ∀ e ∈ evs, scenarioSafe id e = true := by
  induction outcomes with
  | nil => exact ⟨[], rfl, by simp⟩
  | cons f rest ih =>
    obtain ⟨evs1, hrun, hsafe1⟩ := runScenario_active cfg f s id h1 h2
    obtain ⟨evs2, hruns, hsafe2⟩ := ih
    refine ⟨evs1 ++ evs2, ?_, ?_⟩
    · simp [runScenarios, hrun, hruns]
    · intro e he
      rcases List.mem_append.1 he with h | h
      · exact hsafe1 e h
      · exact hsafe2 e h

/-- `scenarioSafe` events contain no creation. -/
theorem createdIds_of_safe (id : Nat) (evs : List Ev)
    (h : ∀ e ∈ evs, scenarioSafe id e = true) : createdIds evs = [] := by
  rw [createdIds, List.filterMap_eq_nil_iff]
  intro e he
  have := h e he
  cases e <;> simp_all [scenarioSafe]

/-- `scenarioSafe` events only republish the same handle. -/
theorem publishedIds_of_safe (id : Nat) (evs : List Ev)
    (h : ∀ e ∈ evs, scenarioSafe id e = true) :
    ∀ i ∈ publishedIds evs, i = id := by
  intro i hi
  rw [publishedIds, List.mem_filterMap] at hi
  obtain ⟨e, he, hmatch⟩ := hi
  have := h e he
  cases e <;> simp_all [scenarioSafe]

/-- `scenarioSafe` events contain no destruction. -/
theorem no_destroy_of_safe (id : Nat) (evs : List Ev)
    (h : ∀ e ∈ evs, scenarioSafe id e = true) : evs.countP isDestroy = 0 := by
  rw [List.countP_eq_zero]
  intro e he
  have := h e he
  cases e <;> simp_all [scenarioSafe, isDestroy]

/-- `scenarioSafe` events contain no close. -/
theorem no_close_of_safe (id : Nat) (evs : List Ev)
    (h : ∀ e ∈ evs, scenarioSafe id e = true) : evs.countP isClose = 0 := by
  rw [List.countP_eq_zero]
  intro e he
  have := h e he
  cases e <;> simp_all [scenarioSafe, isClose]

/-- Every scenario phase succeeds and emits no destruction event, from any
starting state. -/
theorem runScenario_no_destroy (cfg : Config) (f : Bool) (s : State) :
    ∃ r, runScenario cfg f s = some r ∧ r.2.countP isDestroy = 0 := by
  rcases hdrv : s.driver with - | id
  · rw [runScenario, beforeScenario_of_none s hdrv]
    by_cases hshot : cfg.noScreenshot = true
    · rw [afterScenario_noScreenshot cfg f _ hshot]
      exact ⟨_, rfl, by simp [isDestroy]⟩
    · rw [Bool.not_eq_true] at hshot
      cases f with
      | false =>
        rw [afterScenario_passed]
        exact ⟨_, rfl, by simp [isDestroy]⟩
      | true =>
        rw [afterScenario_failed cfg _ s.nextId hshot rfl]
        exact ⟨_, rfl, by simp [isDestroy]⟩
  · rw [runScenario, beforeScenario_of_some s id hdrv]
    by_cases hshot : cfg.noScreenshot = true
    · rw [afterScenario_noScreenshot cfg f _ hshot]
      exact ⟨_, rfl, by simp [isDestroy]⟩
    · rw [Bool.not_eq_true] at hshot
      cases f with
      | false =>
        rw [afterScenario_passed]
        exact ⟨_, rfl, by simp [isDestroy]⟩
      | true =>
        rw [afterScenario_failed cfg _ id hshot rfl]
        exact ⟨_, rfl, by simp [isDestroy]⟩

/-- The first scenario of a run creates driver 0, publishes it, and then
emits only `scenarioSafe` events, ending in the live state. -/
theorem runScenario_initial (cfg : Config) (f : Bool) :
    ∃ evsA, runScenario cfg f initState =
      some ({ driver := some 0, globalDriver := some 0, nextId := 1 },
        [Ev.createDriver 0, Ev.publishDriver 0, Ev.publishDriver 0] ++ evsA) ∧
      ∀ e ∈ evsA, scenarioSafe 0 e = true := by
  have hb : beforeScenario initState =
      ({ driver := some 0, globalDriver := some 0, nextId := 1 },
       [Ev.createDriver 0, Ev.publishDriver 0, Ev.publishDriver 0]) := by
    simpa using beforeScenario_of_none initState rfl
  rw [runScenario, hb]
  by_cases hshot : cfg.noScreenshot = true
  · rw [afterScenario_noScreenshot cfg f _ hshot]
    exact ⟨_, rfl, by simp [scenarioSafe]⟩
  · rw [Bool.not_eq_true] at hshot
    cases f with
    | false =>
      rw [afterScenario_passed]
      exact ⟨_, rfl, by simp [scenarioSafe]⟩
    | true =>
      rw [afterScenario_failed cfg _ 0 hshot rfl]
      exact ⟨_, rfl, by simp [scenarioSafe]⟩

end Lifecycle

/-- Claim C1: under a non-`always` teardown policy, the session handle
created before the first scenario is the same one republished to every later
scenario (the before-scenario hook creates only when no driver exists), it
is never destroyed during the scenarios, and it is closed exactly once, in
the after-all-features hook, after the last scenario. -/
theorem c1_session_reuse (cfg : Lifecycle.Config) (f : Bool) (rest : List Bool)
    (hpolicy : cfg.browserTeardownStrategy ≠ "always") :
    ∃ s evs evs2,
      Lifecycle.runScenarios cfg (f :: rest) Lifecycle.initState = some (s, evs) ∧
      s.driver = some 0 ∧ s.globalDriver = some 0 ∧
      evs.head? = some (Lifecycle.Ev.createDriver 0) ∧
      Lifecycle.createdIds evs = [0] ∧
      (∀ i ∈ Lifecycle.publishedIds evs, i = 0) ∧
      evs.countP Lifecycle.isDestroy = 0 ∧
      Lifecycle.afterFeatures cfg s = some (s, evs2) ∧
      (evs ++ evs2).countP Lifecycle.isClose = 1 ∧
      Lifecycle.Ev.closeDriver 0 ∈ evs2 := by
  obtain ⟨evsA, h1, hsafeA⟩ := Lifecycle.runScenario_initial cfg f
  obtain ⟨evsB, h2, hsafeB⟩ := Lifecycle.runScenarios_active cfg rest
    { driver := some 0, globalDriver := some 0, nextId := 1 } 0 rfl rfl
  have hrun : Lifecycle.runScenarios cfg (f :: rest) Lifecycle.initState =
      some ({ driver := some 0, globalDriver := some 0, nextId := 1 },
        ([Lifecycle.Ev.createDriver 0, Lifecycle.Ev.publishDriver 0,
          Lifecycle.Ev.publishDriver 0] ++ evsA) ++ evsB) := by
    simp [Lifecycle.runScenarios, h1, h2]
  refine ⟨_, _, Lifecycle.Ev.closeDriver 0 ::
      (if cfg.browserName = "firefox" then [] else [Lifecycle.Ev.quitDriver 0]),
    hrun, rfl, rfl, ?_, ?_, ?_, ?_, ?_, ?_, ?_⟩
  · rfl
  · simp only [Lifecycle.createdIds, List.filterMap_append]
    rw [← Lifecycle.createdIds, ← Lifecycle.createdIds, ← Lifecycle.createdIds,
      Lifecycle.createdIds_of_safe 0 evsA hsafeA,
      Lifecycle.createdIds_of_safe 0 evsB hsafeB]
    rfl
  · intro i hi
    simp only [Lifecycle.publishedIds, List.filterMap_append, List.mem_append] at hi
    rcases hi with (hi | hi) | hi
    · simp only [List.filterMap] at hi
      simpa using hi
    · exact Lifecycle.publishedIds_of_safe 0 evsA hsafeA i hi
    · exact Lifecycle.publishedIds_of_safe 0 evsB hsafeB i hi
  · rw [List.countP_append, List.countP_append,
      Lifecycle.no_destroy_of_safe 0 evsA hsafeA,
      Lifecycle.no_destroy_of_safe 0 evsB hsafeB]
    rfl
  · exact Lifecycle.afterFeatures_not_always cfg _ 0 hpolicy rfl
  · rw [List.countP_append, List.countP_append, List.countP_append,
      Lifecycle.no_close_of_safe 0 evsA hsafeA,
      Lifecycle.no_close_of_safe 0 evsB hsafeB]
    by_cases hff : cfg.browserName = "firefox" <;>
      simp [hff, List.countP_cons, Lifecycle.isClose]
  · exact List.mem_cons_self _ _

/-- Claim C1 witness: a chrome run under the `default` policy with a failed
then a passed scenario reuses handle 0 throughout and closes it once in the
after-all-features hook. -/
theorem c1_witness :
    ∃ s evs evs2,
      Lifecycle.runScenarios (Lifecycle.Config.mk "chrome" "default" false)
        [true, false] Lifecycle.initState = some (s, evs) ∧
      s.driver = some 0 ∧ s.globalDriver = some 0 ∧
      evs.head? = some (Lifecycle.Ev.createDriver 0) ∧
      Lifecycle.createdIds evs = [0] ∧
      (∀ i ∈ Lifecycle.publishedIds evs, i = 0) ∧
      evs.countP Lifecycle.isDestroy = 0 ∧
      Lifecycle.afterFeatures (Lifecycle.Config.mk "chrome" "default" false) s =
        some (s, evs2) ∧
      (evs ++ evs2).countP Lifecycle.isClose = 1 ∧
      Lifecycle.Ev.closeDriver 0 ∈ evs2 :=
  c1_session_reuse (Lifecycle.Config.mk "chrome" "default" false) true [false]
    (by decide)

/-- Claim C2: final teardown happens exactly when the teardown policy is not
`always` and only in the after-all-features hook: the browser is closed
first and then quit, except that the quit step is skipped exactly for
firefox; no scenario-level hook ever emits a close or quit. -/
theorem c2_final_teardown (cfg : Lifecycle.Config) (s : Lifecycle.State) (id : Nat)
    (h : s.driver = some id) :
    (cfg.browserTeardownStrategy = "always" →
      Lifecycle.afterFeatures cfg s = some (s, [])) ∧
    (cfg.browserTeardownStrategy ≠ "always" →
      Lifecycle.afterFeatures cfg s =
        some (s, Lifecycle.Ev.closeDriver id ::
          (if cfg.browserName = "firefox" then [] else [Lifecycle.Ev.quitDriver id]))) ∧
    (∀ f t r, Lifecycle.runScenario cfg f t = some r →
      r.2.countP Lifecycle.isDestroy = 0) := by
  refine ⟨fun ha => Lifecycle.afterFeatures_always cfg s ha,
    fun hn => Lifecycle.afterFeatures_not_always cfg s id hn h,
    fun f t r hr => ?_⟩
  obtain ⟨r2, hr2, hcount⟩ := Lifecycle.runScenario_no_destroy cfg f t
  rw [hr] at hr2
  cases hr2
  exact hcount

/-- Claim C2 witness: a firefox run under the `default` policy closes the
session in the after-all-features hook without the quit step. -/
theorem c2_witness :
    Lifecycle.afterFeatures (Lifecycle.Config.mk "firefox" "default" false)
      (Lifecycle.State.mk (some 3) (some 3) 4) =
      some (Lifecycle.State.mk (some 3) (some 3) 4, [Lifecycle.Ev.closeDriver 3]) := by
  have h := (c2_final_teardown (Lifecycle.Config.mk "firefox" "default" false)
    (Lifecycle.State.mk (some 3) (some 3) 4) 3 rfl).2.1 (by decide)
  simpa using h

/-- Claim C3 counterexample: under the `default` (non-`always`) policy, the
after-scenario handling of a failed scenario leaves the driver state intact
and its trace contains no close or quit — it does not destroy the session
handle, contrary to the claim. -/
theorem c3_counterexample :
    Lifecycle.afterScenario (Lifecycle.Config.mk "chrome" "default" false) true
        (Lifecycle.State.mk (some 0) (some 0) 1) =
      some (Lifecycle.State.mk (some 0) (some 0) 1,
        [Lifecycle.Ev.takeScreenshot 0, Lifecycle.Ev.attachScreenshot,
         Lifecycle.Ev.clearCookies, Lifecycle.Ev.clearStorages,
         Lifecycle.Ev.clearCookies, Lifecycle.Ev.clearStorages]) ∧
    (Option.map (fun r => r.2.countP Lifecycle.isDestroy)
      (Lifecycle.afterScenario (Lifecycle.Config.mk "chrome" "default" false) true
        (Lifecycle.State.mk (some 0) (some 0) 1))) = some 0 := by
  decide

/-- Claim C3 (amended): under a non-`always` teardown policy the session
handle is destroyed only after all scenarios, in the after-all-features
hook; the after-scenario handling of a failed scenario captures diagnostics
and clears cookies/storage but performs no close or quit (the
`closeBrowser()` call in `teardownBrowser` is commented out in the
source). -/
theorem c3_failed_scenario_hygiene_only (cfg : Lifecycle.Config) (failed : Bool)
    (s : Lifecycle.State) (id : Nat) (h1 : s.driver = some id)
    (h2 : s.globalDriver = some id)
    (hpolicy : cfg.browserTeardownStrategy ≠ "always") :
    (∃ evs, Lifecycle.afterScenario cfg failed s = some (s, evs) ∧
      evs.countP Lifecycle.isDestroy = 0 ∧
      ∀ e ∈ evs, Lifecycle.isCapture e = true ∨ Lifecycle.isHygiene e = true) ∧
    Lifecycle.afterFeatures cfg s =
      some (s, Lifecycle.Ev.closeDriver id ::
        (if cfg.browserName = "firefox" then [] else [Lifecycle.Ev.quitDriver id])) := by
  refine ⟨?_, Lifecycle.afterFeatures_not_always cfg s id hpolicy h1⟩
  by_cases hshot : cfg.noScreenshot = true
  · rw [Lifecycle.afterScenario_noScreenshot cfg failed s hshot]
    exact ⟨_, rfl, by simp [Lifecycle.isDestroy],
      by simp [Lifecycle.isCapture, Lifecycle.isHygiene]⟩
  · rw [Bool.not_eq_true] at hshot
    cases failed with
    | false =>
      rw [Lifecycle.afterScenario_passed]
      exact ⟨_, rfl, by simp [Lifecycle.isDestroy],
        by simp [Lifecycle.isCapture, Lifecycle.isHygiene]⟩
    | true =>
      rw [Lifecycle.afterScenario_failed cfg s id hshot h2]
      exact ⟨_, rfl, by simp [Lifecycle.isDestroy],
        by simp [Lifecycle.isCapture, Lifecycle.isHygiene]⟩

/-- Claim C3 witness: a failed chrome scenario under the `default` policy
only captures and clears; the close happens in the after-all-features
hook. -/
theorem c3_witness :
    (∃ evs, Lifecycle.afterScenario (Lifecycle.Config.mk "chrome" "default" false)
        true (Lifecycle.State.mk (some 0) (some 0) 1) =
        some (Lifecycle.State.mk (some 0) (some 0) 1, evs) ∧
      evs.countP Lifecycle.isDestroy = 0 ∧
      ∀ e ∈ evs, Lifecycle.isCapture e = true ∨ Lifecycle.isHygiene e = true) ∧
    Lifecycle.afterFeatures (Lifecycle.Config.mk "chrome" "default" false)
      (Lifecycle.State.mk (some 0) (some 0) 1) =
      some (Lifecycle.State.mk (some 0) (some 0) 1,
        Lifecycle.Ev.closeDriver 0 ::
          (if ("chrome" : String) = "firefox" then []
           else [Lifecycle.Ev.quitDriver 0])) :=
  c3_failed_scenario_hygiene_only (Lifecycle.Config.mk "chrome" "default" false)
    true (Lifecycle.State.mk (some 0) (some 0) 1) 0 rfl rfl (by decide)

/-- Claim C4: for a failed scenario with screenshots enabled, the after-hook
captures and attaches a screenshot from the still-live session strictly
before any cookie/storage hygiene, and no teardown (close or quit) step runs
at all; for a passed scenario no screenshot is taken and only the hygiene
runs. -/
theorem c4_screenshot_before_hygiene (cfg : Lifecycle.Config) (s : Lifecycle.State)
    (id : Nat) (hshot : cfg.noScreenshot = false) (hg : s.globalDriver = some id) :
    (∃ pre post,
      Lifecycle.afterScenario cfg true s = some (s, pre ++ post) ∧
      pre = [Lifecycle.Ev.takeScreenshot id, Lifecycle.Ev.attachScreenshot] ∧
      post = [Lifecycle.Ev.clearCookies, Lifecycle.Ev.clearStorages,
              Lifecycle.Ev.clearCookies, Lifecycle.Ev.clearStorages] ∧
      (∀ e ∈ pre, Lifecycle.isCapture e = true) ∧
      (∀ e ∈ post, Lifecycle.isHygiene e = true) ∧
      (pre ++ post).countP Lifecycle.isDestroy = 0) ∧
    Lifecycle.afterScenario cfg false s =
      some (s, [Lifecycle.Ev.clearCookies, Lifecycle.Ev.clearStorages]) := by
  refine ⟨⟨[Lifecycle.Ev.takeScreenshot id, Lifecycle.Ev.attachScreenshot],
    [Lifecycle.Ev.clearCookies, Lifecycle.Ev.clearStorages,
     Lifecycle.Ev.clearCookies, Lifecycle.Ev.clearStorages], ?_, rfl, rfl,
    by simp [Lifecycle.isCapture], by simp [Lifecycle.isHygiene],
    by simp [Lifecycle.isDestroy]⟩, Lifecycle.afterScenario_passed cfg s⟩
  simpa using Lifecycle.afterScenario_failed cfg s id hshot hg

/-- Claim C4 witness: the failed and passed after-hook traces at a concrete
live session. -/
theorem c4_witness :
    (∃ pre post,
      Lifecycle.afterScenario (Lifecycle.Config.mk "chrome" "default" false) true
          (Lifecycle.State.mk (some 0) (some 0) 1) =
        some (Lifecycle.State.mk (some 0) (some 0) 1, pre ++ post) ∧
      pre = [Lifecycle.Ev.takeScreenshot 0, Lifecycle.Ev.attachScreenshot] ∧
      post = [Lifecycle.Ev.clearCookies, Lifecycle.Ev.clearStorages,
              Lifecycle.Ev.clearCookies, Lifecycle.Ev.clearStorages] ∧
      (∀ e ∈ pre, Lifecycle.isCapture e = true) ∧
      (∀ e ∈ post, Lifecycle.isHygiene e = true) ∧
      (pre ++ post).countP Lifecycle.isDestroy = 0) ∧
    Lifecycle.afterScenario (Lifecycle.Config.mk "chrome" "default" false) false
        (Lifecycle.State.mk (some 0) (some 0) 1) =
      some (Lifecycle.State.mk (some 0) (some 0) 1,
        [Lifecycle.Ev.clearCookies, Lifecycle.Ev.clearStorages]) :=
  c4_screenshot_before_hygiene (Lifecycle.Config.mk "chrome" "default" false)
    (Lifecycle.State.mk (some 0) (some 0) 1) 0 rfl rfl

end SeleniumCucumber
